import Mathlib

/-!
Verification of the resilient request layer and the execution-completion
polling loop of `src/main.py` (`make_http_request`, lines 474-527, and the
`wait_for_execution_completion` tool branch, lines 1069-1140).

The embedding abstracts the network as an oracle of transport outcomes
(one per HTTP attempt for the request layer; one status-fetch result and
one log-fetch result per loop iteration for the poller).  Time is modelled
by the poller's own clock: requests are instantaneous and each
`asyncio.sleep(poll_interval)` advances elapsed time by `poll_interval`
(all intervals are integers, per the tool input schema).
-/

/-- A JSON value, as decoded by `response.json()`.  Python dict keys are
unique and insertion-ordered; we model objects as association lists. -/
inductive Json where
  | null : Json
  | bool : Bool → Json
  | num : Int → Json
  | str : String → Json
  | arr : List Json → Json
  | obj : List (String × Json) → Json


/-- Lookup of `d.get(key)` on a decoded JSON object: first matching key,
`none` when absent (the decoded values the poller reads are dicts). -/
def jGet : Json → String → Option Json
  | .obj fields, k => (fields.find? (fun f => f.1 = k)).map (fun f => f.2)
  | _, _ => none

/-- Lookup of `d.get(key, default)`. -/
def jGetD (j : Json) (k : String) (dflt : Json) : Json :=
  (jGet j k).getD dflt

/-- The MCP error codes used by the source (`ErrorCode.INTERNAL_ERROR`,
`ErrorCode.INVALID_PARAMS`, `ErrorCode.METHOD_NOT_FOUND`). -/
inductive ErrorCode where
  | internalError : ErrorCode
  | invalidParams : ErrorCode
  | methodNotFound : ErrorCode


/-- An `McpError` raised by the source: a code plus a message string. -/
structure McpError where
  code : ErrorCode
  message : String


/-- The body of an HTTP response, as seen through `response.json()` /
`response.text`: either text that parses as JSON (with its parse), or
text that does not. -/
inductive Body where
  | jsonBody : Json → Body
  | textBody : String → Body


/-- The outcome of one transport-level attempt by `httpx`: a response
with a status code and body, a `httpx.TimeoutException`, or another
`httpx.RequestError` carrying a message. -/
inductive TransportOutcome where
  | response : Nat → Body → TransportOutcome
  | timeout : TransportOutcome
  | requestError : String → TransportOutcome


/-- A run of `n` spaces, for JSON indentation. -/
def spaces (n : Nat) : String :=
  String.mk (List.replicate n ' ')

/-- JSON string quoting as `json.dumps` renders it (escape sequences for
exotic characters are not modelled; none of the claims exercises them). -/
def jsonQuote (s : String) : String :=
  "\"" ++ s ++ "\""

mutual

/-- Rendering of `json.dumps(v, indent=2)` at indentation level `ind`. -/
def dumps (ind : Nat) : Json → String
  | .null => "null"
  | .bool true => "true"
  | .bool false => "false"
  | .num n => toString n
  | .str s => jsonQuote s
  | .arr [] => "[]"
  | .arr (x :: xs) =>
      "[\n" ++ spaces (ind + 2) ++ dumps (ind + 2) x ++ dumpsTail (ind + 2) xs
        ++ "\n" ++ spaces ind ++ "]"
  | .obj [] => "\x7b\x7d"
  | .obj (f :: fs) =>
      "\x7b\n" ++ spaces (ind + 2) ++ dumpsField (ind + 2) f
        ++ dumpsFieldsTail (ind + 2) fs ++ "\n" ++ spaces ind ++ "\x7d"

/-- Remaining array elements, each on its own indented line. -/
def dumpsTail (ind : Nat) : List Json → String
  | [] => ""
  | x :: xs => ",\n" ++ spaces ind ++ dumps ind x ++ dumpsTail ind xs

/-- One `"key": value` member of an object. -/
def dumpsField (ind : Nat) : String × Json → String
  | (k, v) => jsonQuote k ++ ": " ++ dumps ind v

/-- Remaining object members, each on its own indented line. -/
def dumpsFieldsTail (ind : Nat) : List (String × Json) → String
  | [] => ""
  | f :: fs => ",\n" ++ spaces ind ++ dumpsField ind f ++ dumpsFieldsTail ind fs

end

mutual

/-- Rendering of Python `repr()` on a decoded JSON value (used by f-string
interpolation for non-string values). -/
def pyRepr : Json → String
  | .null => "None"
  | .bool true => "True"
  | .bool false => "False"
  | .num n => toString n
  | .str s => "\x27" ++ s ++ "\x27"
  | .arr xs => "[" ++ pyReprList xs ++ "]"
  | .obj fs => "\x7b" ++ pyReprFields fs ++ "\x7d"

/-- Comma-separated `repr()` of list elements. -/
def pyReprList : List Json → String
  | [] => ""
  | [x] => pyRepr x
  | x :: xs => pyRepr x ++ ", " ++ pyReprList xs

/-- Comma-separated `repr()` of dict members. -/
def pyReprFields : List (String × Json) → String
  | [] => ""
  | [(k, v)] => "\x27" ++ k ++ "\x27: " ++ pyRepr v
  | (k, v) :: fs => "\x27" ++ k ++ "\x27: " ++ pyRepr v ++ ", " ++ pyReprFields fs

end

/-- Rendering of Python `str()` on a decoded JSON value, as an f-string
interpolates it: a string renders as itself, anything else as `repr()`. -/
def pyStr : Json → String
  | .str s => s
  | v => pyRepr v

/-- The `error_detail` computed for a status `>= 400` response
(lines 499-504): the pretty-printed JSON parse of the body when the body
is JSON, the raw text otherwise. -/
def bodyDetail : Body → String
  | .jsonBody j => dumps 0 j
  | .textBody t => t

/-- Embedding of `make_http_request` (src/main.py lines 474-527) applied
to the outcome of the single transport attempt it makes.  Header merging
and URL construction do not affect the returned envelope and are left to
the transport oracle.
  - a `httpx.TimeoutException` raises `McpError(INTERNAL_ERROR, "Request timed out")`;
  - another `httpx.RequestError` raises `McpError(INTERNAL_ERROR, "Request failed: <msg>")`;
  - a response with status `>= 400` raises
    `McpError(INTERNAL_ERROR, "HTTP <status>: <error_detail>")`;
  - otherwise the JSON parse of the body is returned, or the fallback
    `{message: <text>, status_code: <status>}` when the body is not JSON. -/
def make_http_request : TransportOutcome → Except McpError Json
  | .timeout => .error ⟨.internalError, "Request timed out"⟩
  | .requestError msg => .error ⟨.internalError, "Request failed: " ++ msg⟩
  | .response status body =>
      if status ≥ 400 then
        .error ⟨.internalError,
          "HTTP " ++ toString status ++ ": " ++ bodyDetail body⟩
      else
        match body with
        | .jsonBody j => .ok j
        | .textBody t =>
            .ok (.obj [("message", .str t), ("status_code", .num status)])

/-- `make_http_request` run against an attempt-indexed oracle of transport
outcomes.  The source has no retry loop: the function body issues exactly
one `client.request` call, so only the first attempt outcome is consulted. -/
def make_http_request_on (outcomes : Nat → TransportOutcome) :
    Except McpError Json :=
  make_http_request (outcomes 0)

/-- Modelled from the spec (section 4.1, retry policy): the executor the
spec describes, with a budget of 3 total attempts, retrying on 429, on a
transport timeout and on a transport error while attempts remain, and
otherwise behaving like the single-attempt request.  Declared only to be
compared with `make_http_request_on`; the sleeps themselves have no
observable effect on the returned value and are not modelled. -/
def execute_spec_go (outcomes : Nat → TransportOutcome) :
    Nat → Nat → Except McpError Json
  | 0, k => make_http_request (outcomes k)
  | r + 1, k =>
      match outcomes k with
      | .timeout => execute_spec_go outcomes r (k + 1)
      | .requestError _ => execute_spec_go outcomes r (k + 1)
      | .response 429 _ => execute_spec_go outcomes r (k + 1)
      | o => make_http_request o

/-- Modelled from the spec: the full spec-side executor, 3 total attempts
(2 retries after the first attempt). -/
def execute_spec (outcomes : Nat → TransportOutcome) : Except McpError Json :=
  execute_spec_go outcomes 2 0

/-- The two Request Executor results one poll iteration can consume: the
mandatory status fetch and the optional log fetch (lines 1092 and 1101). -/
structure IterInput where
  statusResult : Except McpError Json
  logsResult : Except McpError Json

/-- The outcome of one `wait_for_execution_completion` session: either the
execution finished (final status, elapsed time, timeline, final status
envelope — lines 1116-1126) or the timeout budget elapsed (lines 1131-1140,
no final envelope). -/
inductive PollOutcome where
  | finished : (finalStatus : String) → (elapsedTime : Nat) →
      (timeline : List String) → (finalEnvelope : Json) → PollOutcome
  | timedOut : (elapsedTime : Nat) → (timeline : List String) → PollOutcome

/-- Rendering of `f"{t:.1f}"` for the whole-number elapsed times produced
by the integer poll interval under the instantaneous-request time model. -/
def fmtElapsed (t : Nat) : String :=
  toString t ++ ".0"

/-- The observation line of src/main.py line 1095:
`f"[{elapsed:.1f}s] Status: {current_status}"`. -/
def statusLine (elapsed : Nat) (sv : Json) : String :=
  "[" ++ fmtElapsed elapsed ++ "s] Status: " ++ pyStr sv

/-- The log line of src/main.py line 1109:
`f"    [{level}] {task_id}: {message}"`, with the defaults of lines
1106-1108 (`INFO`, `unknown`, `No message`). -/
def fmtLogEntry (log : Json) : String :=
  "    [" ++ pyStr (jGetD log "level" (.str "INFO")) ++ "] "
    ++ pyStr (jGetD log "task_id" (.str "unknown")) ++ ": "
    ++ pyStr (jGetD log "message" (.str "No message"))

/-- The terminal check of line 1116: `current_status in ['COMPLETED',
'FAILED']`.  In Python only a string value can equal those list elements,
and the comparison is exact and case-sensitive. -/
def isTerminal : Json → Bool
  | .str s => s = "COMPLETED" || s = "FAILED"
  | _ => false

/-- The log block of lines 1098-1113, producing the timeline lines it
appends and the new `last_log_count`.  When `show_logs` is unset the block
is skipped; any failure of the log fetch is swallowed by the bare
`except`, leaving timeline and cursor unchanged; on success the entries
of `logs` beyond the cursor are formatted and the cursor becomes
`len(logs)`.  A `logs` value that is not a list makes the slice of line
1103 raise, which the same bare `except` swallows (log entries themselves
are taken to be objects, as the service produces them). -/
def processLogs (show_logs : Bool) (logsResult : Except McpError Json)
    (llc : Nat) : List String × Nat :=
  if show_logs then
    match logsResult with
    | .error _ => ([], llc)
    | .ok logs_result =>
        match jGetD logs_result "logs" (.arr []) with
        | .arr logs => ((logs.drop llc).map fmtLogEntry, logs.length)
        | _ => ([], llc)
  else ([], llc)

/-- One-step-at-a-time embedding of the polling loop of lines 1089-1140.
`fetch k` supplies the Request Executor results of iteration `k`; `elapsed`
is the loop clock (requests instantaneous, each sleep adds
`poll_interval`); `llc` is `last_log_count`; `timeline` is
`status_updates`.  A failing status fetch propagates its `McpError`
(line 1092 has no handler inside the loop).  The fuel argument makes the
recursion structural; `wait_for_execution_completion` passes `timeout + 1`,
which is never exhausted when `poll_interval ≥ 1` (the schema minimum) —
the fuel-out arm stands for the real loop running forever when the
interval is 0. -/
def pollLoop (poll_interval timeout : Nat) (show_logs : Bool)
    (fetch : Nat → IterInput) :
    Nat → Nat → Nat → List String → Except McpError PollOutcome
  | 0, _, _, _ => .error ⟨.internalError, "unreachable: fuel exhausted"⟩
  | fuel + 1, k, llc, timeline =>
      let elapsed := k * poll_interval
      if elapsed < timeout then
        match (fetch k).statusResult with
        | .error e => .error e
        | .ok status_result =>
            let sv := jGetD status_result "status" (.str "Unknown")
            let tl1 := timeline ++ [statusLine elapsed sv]
            let step := processLogs show_logs (fetch k).logsResult llc
            let tl2 := tl1 ++ step.1
            if isTerminal sv then
              .ok (.finished (pyStr sv) elapsed tl2 status_result)
            else
              pollLoop poll_interval timeout show_logs fetch fuel (k + 1)
                step.2 tl2
      else
        .ok (.timedOut elapsed timeline)

/-- Embedding of the `wait_for_execution_completion` tool branch
(src/main.py lines 1069-1140): `last_log_count = 0`, empty
`status_updates`, loop while elapsed time is below `timeout`. -/
def wait_for_execution_completion (poll_interval timeout : Nat)
    (show_logs : Bool) (fetch : Nat → IterInput) :
    Except McpError PollOutcome :=
  pollLoop poll_interval timeout show_logs fetch (timeout + 1) 0 0 []

/-- The successive values of `last_log_count` after each iteration of a
session with `show_logs` set, given the iterations' log-fetch results
(the cursor update of lines 1098-1113, iterated). -/
def cursorTrace : List (Except McpError Json) → Nat → List Nat
  | [], _ => []
  | r :: rest, llc =>
      let llc2 := (processLogs true r llc).2
      llc2 :: cursorTrace rest llc2

/-- A status-fetch envelope carrying the given status string, as
`GET /executions/{id}` returns it. -/
def statusEnv (s : String) : Json :=
  .obj [("status", .str s)]

/-- A log-fetch envelope carrying the given entries under `"logs"`, as
`GET /executions/{id}/logs` returns it. -/
def logsEnv (l : List Json) : Json :=
  .obj [("logs", .arr l)]

/-- A log entry with level `INFO`, task `t1` and the given message. -/
def mkLog (m : String) : Json :=
  .obj [("level", .str "INFO"), ("task_id", .str "t1"), ("message", .str m)]

/-- Attempt oracle for C1: the first attempt times out, a second attempt
would return HTTP 200 with a JSON body. -/
def c1Outcomes : Nat → TransportOutcome := fun k =>
  if k = 0 then .timeout else .response 200 (.jsonBody (.obj [("ok", .bool true)]))

/-- Log-fetch result sequence for C2: one entry, then an empty list. -/
def c2LogResults : List (Except McpError Json) :=
  [.ok (logsEnv [mkLog "hello"]), .ok (logsEnv [])]

/-- Poll inputs for C2: the log service reports one entry, then none,
then the same one entry again, while the status goes RUNNING, RUNNING,
COMPLETED. -/
def c2Fetch : Nat → IterInput := fun k =>
  if k = 0 then ⟨.ok (statusEnv "RUNNING"), .ok (logsEnv [mkLog "hello"])⟩
  else if k = 1 then ⟨.ok (statusEnv "RUNNING"), .ok (logsEnv [])⟩
  else ⟨.ok (statusEnv "COMPLETED"), .ok (logsEnv [mkLog "hello"])⟩

/-- Attempt oracle for C3: every attempt returns HTTP 404 with a plain
text body. -/
def c3Outcomes : Nat → TransportOutcome := fun _ =>
  .response 404 (.textBody "Not Found")

/-- Sample JSON body for C4. -/
def c4Json : Json :=
  .obj [("execution_id", .str "exec-1"), ("queued", .bool true)]

/-- Poll inputs for C5: the status fetch reports FAILED immediately. -/
def c5Fetch : Nat → IterInput := fun _ =>
  ⟨.ok (statusEnv "FAILED"), .ok .null⟩

/-- Poll inputs for C6: RUNNING, RUNNING, then COMPLETED. -/
def c6Fetch : Nat → IterInput := fun k =>
  if k = 0 then ⟨.ok (statusEnv "RUNNING"), .ok .null⟩
  else if k = 1 then ⟨.ok (statusEnv "RUNNING"), .ok .null⟩
  else ⟨.ok (statusEnv "COMPLETED"), .ok .null⟩

/-- Poll inputs for C7: the status fetch always succeeds with RUNNING. -/
def c7Fetch : Nat → IterInput := fun _ =>
  ⟨.ok (statusEnv "RUNNING"), .ok .null⟩

/-- The property C7 claims of a poll result: the outcome is `timedOut`
(hence carries no final envelope) with a non-empty timeline. -/
def timedOutNonempty : Except McpError PollOutcome → Prop
  | .ok (.timedOut _ tl) => tl ≠ []
  | _ => False

/-- Poll inputs for C8: statuses RUNNING then COMPLETED, while every log
fetch fails. -/
def c8Fetch : Nat → IterInput := fun k =>
  ⟨.ok (statusEnv (if k = 0 then "RUNNING" else "COMPLETED")),
   .error ⟨.internalError, "HTTP 500: log store down"⟩⟩

/-- Poll inputs for the status-failure half of C8: the mandatory status
fetch itself fails. -/
def c8BadFetch : Nat → IterInput := fun _ =>
  ⟨.error ⟨.internalError, "Request timed out"⟩, .ok .null⟩

/-- First log list for C9: three entries. -/
def c9Logs1 : List Json :=
  [mkLog "a", mkLog "b", mkLog "c"]

/-- Second log list for C9: the same three entries plus two new ones. -/
def c9Logs2 : List Json :=
  [mkLog "a", mkLog "b", mkLog "c", mkLog "d", mkLog "e"]

/-- Status envelope for C10: a dict with no `"status"` key. -/
def c10Env : Json :=
  .obj [("id", .str "exec-1")]

/-- Poll inputs for C10: every status fetch succeeds with `c10Env`. -/
def c10Fetch : Nat → IterInput := fun _ =>
  ⟨.ok c10Env, .ok .null⟩

/-- The Boolean terminal check of line 1116 holds exactly on the strings
`"COMPLETED"` and `"FAILED"` (exact, case-sensitive). -/
theorem isTerminal_iff (sv : Json) :
    isTerminal sv = true ↔ sv = .str "COMPLETED" ∨ sv = .str "FAILED" := by
  cases sv <;> simp [isTerminal]

/-- C1 (counterexample): on an attempt oracle whose first attempt times
out and whose second attempt would return HTTP 200 with a JSON body,
`make_http_request` fails at once with the timeout error — it never makes
the second attempt — while the retrying executor the claim describes
(`execute_spec`, modelled from the spec) succeeds.  The code therefore
does not retry transient failures. -/
theorem c1_counterexample :
    make_http_request_on c1Outcomes =
      .error ⟨.internalError, "Request timed out"⟩ ∧
    execute_spec c1Outcomes = .ok (.obj [("ok", .bool true)]) ∧
    make_http_request_on c1Outcomes ≠ execute_spec c1Outcomes :=
  ⟨rfl, rfl, fun h => Except.noConfusion
    (show (Except.error (⟨.internalError, "Request timed out"⟩ : McpError) :
        Except McpError Json) = .ok (.obj [("ok", .bool true)]) from h)⟩

/-- C1 (amended): `make_http_request` makes exactly one attempt, with no
retry, no backoff sleep and no special handling of 429: its result is the
single-attempt semantics of the first transport outcome — a timeout fails
immediately with the timeout error, a connection error fails immediately
with the transport error carrying the underlying message, and a 429
response fails immediately like any other status `>= 400`. -/
theorem c1_single_attempt (outcomes : Nat → TransportOutcome)
    (msg : String) (body : Body) :
    make_http_request_on outcomes = make_http_request (outcomes 0) ∧
    make_http_request .timeout =
      .error ⟨.internalError, "Request timed out"⟩ ∧
    make_http_request (.requestError msg) =
      .error ⟨.internalError, "Request failed: " ++ msg⟩ ∧
    make_http_request (.response 429 body) =
      .error ⟨.internalError, "HTTP 429: " ++ bodyDetail body⟩ :=
  ⟨rfl, rfl, rfl, rfl⟩

/-- C3: every response with status `>= 400` makes `make_http_request`
fail with the `McpError` whose message carries the status code and the
error detail (pretty-printed JSON body, or the raw text when the body is
not JSON); the result consults only the first attempt outcome, so no
retry is made for this condition. -/
theorem c3_http_error_no_retry (status : Nat) (body : Body)
    (outcomes : Nat → TransportOutcome)
    (h4 : 400 ≤ status) (h0 : outcomes 0 = .response status body) :
    make_http_request_on outcomes =
      .error ⟨.internalError,
        "HTTP " ++ toString status ++ ": " ++ bodyDetail body⟩ := by
  unfold make_http_request_on
  rw [h0]
  simp only [make_http_request]
  rw [if_pos h4]

/-- C3 (witness): a 404 with a plain-text body. -/
theorem c3_http_error_no_retry_witness :
    400 ≤ 404 ∧
    make_http_request_on c3Outcomes =
      .error ⟨.internalError, "HTTP 404: Not Found"⟩ :=
  ⟨by decide,
   c3_http_error_no_retry 404 (.textBody "Not Found") c3Outcomes (by decide) rfl⟩

/-- C4: every response with status `< 400` yields exactly one envelope:
the decoded JSON body itself when the body is JSON (round-trip identity),
and otherwise the fallback `{message: <raw text>, status_code: <code>}`
record — a non-JSON success body is not an error. -/
theorem c4_success_envelope (status : Nat) (j : Json) (t : String)
    (h : status < 400) :
    make_http_request (.response status (.jsonBody j)) = .ok j ∧
    make_http_request (.response status (.textBody t)) =
      .ok (.obj [("message", .str t), ("status_code", .num status)]) := by
  refine ⟨?_, ?_⟩ <;>
    · simp only [make_http_request]
      rw [if_neg (Nat.not_le.mpr h)]

/-- C4 (witness): a 200 with a JSON body and a 200 with a text body. -/
theorem c4_success_envelope_witness :
    200 < 400 ∧
    (make_http_request (.response 200 (.jsonBody c4Json)) = .ok c4Json ∧
     make_http_request (.response 200 (.textBody "Execution queued")) =
       .ok (.obj [("message", .str "Execution queued"),
                  ("status_code", .num 200)])) :=
  ⟨by decide, c4_success_envelope 200 c4Json "Execution queued" (by decide)⟩

/-- One loop iteration within the budget whose status fetch succeeds:
the loop appends the observation line and any new log lines, then either
finishes (terminal status) or recurses with the advanced clock and
cursor. -/
theorem pollLoop_step (p t : Nat) (sl : Bool) (fetch : Nat → IterInput)
    (fuel k llc : Nat) (tl : List String) (env : Json)
    (hk : k * p < t) (hs : (fetch k).statusResult = .ok env) :
    pollLoop p t sl fetch (fuel + 1) k llc tl =
      if isTerminal (jGetD env "status" (.str "Unknown")) then
        .ok (.finished (pyStr (jGetD env "status" (.str "Unknown"))) (k * p)
          (tl ++ [statusLine (k * p) (jGetD env "status" (.str "Unknown"))]
            ++ (processLogs sl (fetch k).logsResult llc).1) env)
      else
        pollLoop p t sl fetch fuel (k + 1)
          (processLogs sl (fetch k).logsResult llc).2
          (tl ++ [statusLine (k * p) (jGetD env "status" (.str "Unknown"))]
            ++ (processLogs sl (fetch k).logsResult llc).1) := by
  rw [pollLoop]
  simp only [hs, if_pos hk]

/-- One loop iteration within the budget whose mandatory status fetch
fails: the error propagates and aborts the poll. -/
theorem pollLoop_statusFail (p t : Nat) (sl : Bool) (fetch : Nat → IterInput)
    (fuel k llc : Nat) (tl : List String) (e : McpError)
    (hk : k * p < t) (hs : (fetch k).statusResult = .error e) :
    pollLoop p t sl fetch (fuel + 1) k llc tl = .error e := by
  rw [pollLoop]
  simp only [hs, if_pos hk]

/-- One loop iteration past the budget: the loop stops with `timedOut`. -/
theorem pollLoop_budget (p t : Nat) (sl : Bool) (fetch : Nat → IterInput)
    (fuel k llc : Nat) (tl : List String) (hk : ¬ k * p < t) :
    pollLoop p t sl fetch (fuel + 1) k llc tl = .ok (.timedOut (k * p) tl) := by
  rw [pollLoop]
  simp only [if_neg hk]

/-- C2 (counterexample): the log cursor is not monotonically
non-decreasing across successful log fetches — a fetch that returns fewer
entries than the previous one moves it backwards.  With one entry fetched
and then an empty list, the cursor goes 1 then 0; the decrease is
observable in a full poll session, where the same log entry is appended
to the timeline twice. -/
theorem c2_counterexample :
    cursorTrace c2LogResults 0 = [1, 0] ∧
    ¬ List.Chain' (· ≤ ·) (cursorTrace c2LogResults 0) ∧
    wait_for_execution_completion 1 10 true c2Fetch =
      .ok (.finished "COMPLETED" 2
        ["[0.0s] Status: RUNNING", "    [INFO] t1: hello",
         "[1.0s] Status: RUNNING",
         "[2.0s] Status: COMPLETED", "    [INFO] t1: hello"]
        (statusEnv "COMPLETED")) := by
  refine ⟨rfl, ?_, rfl⟩
  rw [show cursorTrace c2LogResults 0 = [1, 0] from rfl]
  simp [List.chain'_cons]

/-- C2 (amended): within one Poll Session the log cursor after a
successful log fetch equals the total length of the fetched log list,
and a failed fetch leaves it unchanged; the cursor is therefore
non-decreasing exactly when no successful fetch returns fewer entries
than the current cursor (as with an append-only log source), and a
shorter fetch moves it backwards. -/
theorem c2_cursor_follows_fetch (env : Json) (l : List Json) (llc : Nat)
    (e : McpError) (h : jGet env "logs" = some (.arr l)) :
    (processLogs true (.ok env) llc).2 = l.length ∧
    (processLogs true (.error e) llc).2 = llc ∧
    (llc ≤ l.length → llc ≤ (processLogs true (.ok env) llc).2) := by
  have hp : (processLogs true (.ok env) llc).2 = l.length := by
    simp [processLogs, jGetD, h]
  exact ⟨hp, rfl, fun hle => hle.trans_eq hp.symm⟩

/-- C2 (witness): a fetch of one entry from cursor 0. -/
theorem c2_cursor_follows_fetch_witness :
    (processLogs true (.ok (logsEnv [mkLog "hello"])) 0).2 =
      [mkLog "hello"].length ∧
    (processLogs true (.error ⟨.internalError, "boom"⟩) 0).2 = 0 ∧
    (0 ≤ [mkLog "hello"].length →
      0 ≤ (processLogs true (.ok (logsEnv [mkLog "hello"])) 0).2) :=
  c2_cursor_follows_fetch (logsEnv [mkLog "hello"]) [mkLog "hello"] 0
    ⟨.internalError, "boom"⟩ rfl

/-- C5: an iteration within the budget whose status fetch succeeds
transitions to Finished exactly when the fetched status value is the
string "COMPLETED" or the string "FAILED" (exact, case-sensitive
comparison), returning the final status, the elapsed time, the full
timeline, and the full status-fetch envelope; any other status value,
other casings and synonyms included, is non-terminal and the loop keeps
polling. -/
theorem c5_terminal_exact (p t : Nat) (sl : Bool) (fetch : Nat → IterInput)
    (fuel k llc : Nat) (tl : List String) (env : Json)
    (hk : k * p < t) (hs : (fetch k).statusResult = .ok env) :
    ((jGetD env "status" (.str "Unknown") = .str "COMPLETED" ∨
      jGetD env "status" (.str "Unknown") = .str "FAILED") →
      pollLoop p t sl fetch (fuel + 1) k llc tl =
        .ok (.finished (pyStr (jGetD env "status" (.str "Unknown"))) (k * p)
          (tl ++ [statusLine (k * p) (jGetD env "status" (.str "Unknown"))]
            ++ (processLogs sl (fetch k).logsResult llc).1) env)) ∧
    (jGetD env "status" (.str "Unknown") ≠ .str "COMPLETED" →
     jGetD env "status" (.str "Unknown") ≠ .str "FAILED" →
      pollLoop p t sl fetch (fuel + 1) k llc tl =
        pollLoop p t sl fetch fuel (k + 1)
          (processLogs sl (fetch k).logsResult llc).2
          (tl ++ [statusLine (k * p) (jGetD env "status" (.str "Unknown"))]
            ++ (processLogs sl (fetch k).logsResult llc).1)) := by
  constructor
  · intro hterm
    rw [pollLoop_step p t sl fetch fuel k llc tl env hk hs,
      if_pos ((isTerminal_iff _).mpr hterm)]
  · intro hc hf
    rw [pollLoop_step p t sl fetch fuel k llc tl env hk hs,
      if_neg (fun hb => ((isTerminal_iff _).mp hb).elim hc hf)]

/-- C5 (witness): a FAILED status finishes at once with the observation
line and the envelope. -/
theorem c5_terminal_exact_witness :
    pollLoop 5 300 false c5Fetch 1 0 0 [] =
      .ok (.finished "FAILED" 0 ["[0.0s] Status: FAILED"]
        (statusEnv "FAILED")) :=
  (c5_terminal_exact 5 300 false c5Fetch 0 0 0 [] (statusEnv "FAILED")
    (by decide) rfl).1 (Or.inr rfl)

/-- C6: with poll interval 5, timeout 300 and fetched statuses RUNNING,
RUNNING, COMPLETED, the poll finishes with final status COMPLETED and the
timeline is exactly the 3 status observation lines in fetch order. -/
theorem c6_concrete_run :
    wait_for_execution_completion 5 300 false c6Fetch =
      .ok (.finished "COMPLETED" 10
        ["[0.0s] Status: RUNNING", "[5.0s] Status: RUNNING",
         "[10.0s] Status: COMPLETED"]
        (statusEnv "COMPLETED")) := rfl

/-- When the mandatory status fetch always succeeds with a non-terminal
status and the interval is positive, the loop ends in `timedOut`,
extending the timeline it starts from, strictly so when the current
iteration is still within the budget. -/
theorem pollLoop_timedOut (p t : Nat) (sl : Bool) (fetch : Nat → IterInput)
    (env : Nat → Json) (hp : 0 < p)
    (hs : ∀ k, (fetch k).statusResult = .ok (env k))
    (hnt : ∀ k, isTerminal (jGetD (env k) "status" (.str "Unknown")) = false) :
    ∀ fuel k llc tl, t - k * p < fuel →
      ∃ e tl2,
        pollLoop p t sl fetch fuel k llc tl = .ok (.timedOut e (tl ++ tl2)) ∧
        (k * p < t → tl2 ≠ []) := by
  intro fuel
  induction fuel with
  | zero =>
      intro k llc tl hf
      exact absurd hf (Nat.not_lt_zero _)
  | succ n ih =>
      intro k llc tl hf
      by_cases hk : k * p < t
      · have harg : t - (k + 1) * p < n := by
          have h2 : (k + 1) * p = k * p + p := by ring
          rw [h2]
          revert hf hk
          generalize k * p = m
          intro hf hk
          omega
        obtain ⟨e, tl2, heq, _⟩ := ih (k + 1)
          (processLogs sl (fetch k).logsResult llc).2
          (tl ++ [statusLine (k * p) (jGetD (env k) "status" (.str "Unknown"))]
            ++ (processLogs sl (fetch k).logsResult llc).1) harg
        refine ⟨e, [statusLine (k * p) (jGetD (env k) "status" (.str "Unknown"))]
          ++ (processLogs sl (fetch k).logsResult llc).1 ++ tl2, ?_, fun _ => by simp⟩
        rw [pollLoop_step p t sl fetch n k llc tl (env k) hk (hs k),
          if_neg (by simp [hnt k]), heq]
        simp
      · exact ⟨k * p, [], by rw [pollLoop_budget p t sl fetch n k llc tl hk]; simp,
          fun h => absurd h hk⟩

/-- C7: when every mandatory status fetch succeeds but the status value
is never terminal, a poll with positive interval and positive timeout
budget ends in `TimedOut` — which carries no final envelope — with a
non-empty timeline. -/
theorem c7_timeout_outcome (p t : Nat) (sl : Bool) (fetch : Nat → IterInput)
    (env : Nat → Json) (hp : 0 < p) (ht : 0 < t)
    (hs : ∀ k, (fetch k).statusResult = .ok (env k))
    (hnt : ∀ k, isTerminal (jGetD (env k) "status" (.str "Unknown")) = false) :
    timedOutNonempty (wait_for_execution_completion p t sl fetch) := by
  obtain ⟨e, tl2, heq, hne⟩ :=
    pollLoop_timedOut p t sl fetch env hp hs hnt (t + 1) 0 0 [] (by simp)
  rw [wait_for_execution_completion, heq]
  simp only [timedOutNonempty, List.nil_append]
  exact hne (by simpa using ht)

/-- C7 (witness): interval 1, budget 2, status always RUNNING. -/
theorem c7_timeout_outcome_witness :
    timedOutNonempty (wait_for_execution_completion 1 2 false c7Fetch) :=
  c7_timeout_outcome 1 2 false c7Fetch (fun _ => statusEnv "RUNNING")
    (by decide) (by decide) (fun _ => rfl) (fun _ => rfl)

/-- When every optional log fetch fails, the poll behaves exactly like a
poll that never asks for logs: the bare `except` swallows the failure and
leaves timeline and cursor untouched. -/
theorem pollLoop_no_logs (p t : Nat) (fetch : Nat → IterInput)
    (hl : ∀ k, ∃ e, (fetch k).logsResult = .error e) :
    ∀ fuel k llc tl,
      pollLoop p t true fetch fuel k llc tl =
        pollLoop p t false fetch fuel k llc tl := by
  intro fuel
  induction fuel with
  | zero => intro k llc tl; rfl
  | succ n ih =>
      intro k llc tl
      by_cases hk : k * p < t
      · cases hcase : (fetch k).statusResult with
        | error e =>
            rw [pollLoop_statusFail p t true fetch n k llc tl e hk hcase,
              pollLoop_statusFail p t false fetch n k llc tl e hk hcase]
        | ok env =>
            obtain ⟨e, he⟩ := hl k
            rw [pollLoop_step p t true fetch n k llc tl env hk hcase,
              pollLoop_step p t false fetch n k llc tl env hk hcase, he]
            by_cases hterm : isTerminal (jGetD env "status" (.str "Unknown")) = true
            · rw [if_pos hterm, if_pos hterm]
              rfl
            · rw [if_neg hterm, if_neg hterm]
              exact ih _ _ _
      · rw [pollLoop_budget p t true fetch n k llc tl hk,
          pollLoop_budget p t false fetch n k llc tl hk]

/-- C8: with includeLogs set and every optional log fetch failing, the
poll session is exactly the session that never asks for logs — it reaches
the same status-determined outcome with no log line appended — while a
failure of the mandatory status fetch within the budget aborts the poll
with that very error. -/
theorem c8_log_failures_swallowed (p t : Nat) (fetch fetch2 : Nat → IterInput)
    (sl : Bool) (fuel k llc : Nat) (tl : List String) (e : McpError)
    (hl : ∀ i, ∃ err, (fetch i).logsResult = .error err)
    (hk : k * p < t) (hs : (fetch2 k).statusResult = .error e) :
    wait_for_execution_completion p t true fetch =
      wait_for_execution_completion p t false fetch ∧
    pollLoop p t sl fetch2 (fuel + 1) k llc tl = .error e :=
  ⟨by rw [wait_for_execution_completion, wait_for_execution_completion,
      pollLoop_no_logs p t fetch hl],
   pollLoop_statusFail p t sl fetch2 fuel k llc tl e hk hs⟩

/-- C8 (witness): two iterations with failing log fetches reach the same
COMPLETED outcome as without logs; a failing status fetch aborts. -/
theorem c8_log_failures_swallowed_witness :
    wait_for_execution_completion 1 5 true c8Fetch =
      wait_for_execution_completion 1 5 false c8Fetch ∧
    pollLoop 1 5 false c8BadFetch 1 0 0 [] =
      .error ⟨.internalError, "Request timed out"⟩ :=
  c8_log_failures_swallowed 1 5 c8Fetch c8BadFetch false 0 0 0 []
    ⟨.internalError, "Request timed out"⟩
    (fun _ => ⟨⟨.internalError, "HTTP 500: log store down"⟩, rfl⟩)
    (by decide) rfl

/-- C9: for two consecutive successful log fetches returning lists of
lengths m then n with n ≥ m, the first fetch leaves the cursor at m, the
second appends exactly one formatted line per entry at indices m..n-1 of
the second list — the first m entries are not re-appended — and the
cursor advances to n. -/
theorem c9_incremental_slice (env1 env2 : Json) (l1 l2 : List Json)
    (c0 : Nat)
    (h1 : jGet env1 "logs" = some (.arr l1))
    (h2 : jGet env2 "logs" = some (.arr l2))
    (_hmn : l1.length ≤ l2.length) :
    (processLogs true (.ok env1) c0).2 = l1.length ∧
    (processLogs true (.ok env2) (processLogs true (.ok env1) c0).2).1 =
      (l2.drop l1.length).map fmtLogEntry ∧
    (processLogs true (.ok env2) (processLogs true (.ok env1) c0).2).2 =
      l2.length := by
  simp [processLogs, jGetD, h1, h2]

/-- C9 (witness): log lists of lengths 3 then 5 — exactly the 2 new
entries are appended. -/
theorem c9_incremental_slice_witness :
    (processLogs true (.ok (logsEnv c9Logs1)) 0).2 = c9Logs1.length ∧
    (processLogs true (.ok (logsEnv c9Logs2))
        (processLogs true (.ok (logsEnv c9Logs1)) 0).2).1 =
      (c9Logs2.drop c9Logs1.length).map fmtLogEntry ∧
    (processLogs true (.ok (logsEnv c9Logs2))
        (processLogs true (.ok (logsEnv c9Logs1)) 0).2).2 =
      c9Logs2.length :=
  c9_incremental_slice (logsEnv c9Logs1) (logsEnv c9Logs2) c9Logs1 c9Logs2 0
    rfl rfl (by decide)

/-- C10: when the fetched status envelope lacks a "status" key, the
`.get` default makes the observed status the string "Unknown"; the
iteration records the observation line with it and is non-terminal — the
loop continues polling with the advanced clock. -/
theorem c10_missing_status_unknown (p t : Nat) (sl : Bool)
    (fetch : Nat → IterInput) (fuel k llc : Nat) (tl : List String)
    (env : Json)
    (hk : k * p < t) (hs : (fetch k).statusResult = .ok env)
    (hmiss : jGet env "status" = none) :
    jGetD env "status" (.str "Unknown") = .str "Unknown" ∧
    pollLoop p t sl fetch (fuel + 1) k llc tl =
      pollLoop p t sl fetch fuel (k + 1)
        (processLogs sl (fetch k).logsResult llc).2
        (tl ++ [statusLine (k * p) (.str "Unknown")]
          ++ (processLogs sl (fetch k).logsResult llc).1) := by
  have hsv : jGetD env "status" (.str "Unknown") = .str "Unknown" := by
    simp [jGetD, hmiss]
  refine ⟨hsv, ?_⟩
  rw [pollLoop_step p t sl fetch fuel k llc tl env hk hs, hsv,
    if_neg (by decide)]

/-- C10 (witness): an envelope with only an "id" key polls on with an
"Unknown" observation. -/
theorem c10_missing_status_unknown_witness :
    jGetD c10Env "status" (.str "Unknown") = .str "Unknown" ∧
    pollLoop 1 5 false c10Fetch 5 0 0 [] =
      pollLoop 1 5 false c10Fetch 4 1
        (processLogs false (c10Fetch 0).logsResult 0).2
        ([] ++ [statusLine 0 (.str "Unknown")]
          ++ (processLogs false (c10Fetch 0).logsResult 0).1) :=
  c10_missing_status_unknown 1 5 false c10Fetch 4 0 0 [] c10Env
    (by decide) rfl rfl
